import Mathlib

/-!
Shallow embedding of the wire-protocol engine in src/protege_client.py of the
hass_protege_wx repository, together with theorems settling the spec claims.
Bytes are modelled as Nat with explicit mod 256 where the Python code relies
on byte arithmetic; byte strings are List Nat; fallible paths return Option
or Except.  The repository's const.py is not under src/, so the numeric
protocol constants are modelled from the spec where their values matter.
-/

namespace Protege

/-- Modelled from the spec: const.py is absent from src/; packet type of a
client command frame, 0x00 per spec section 3. -/
def PACKET_TYPE_COMMAND : Nat := 0x00

/-- Modelled from the spec: const.py is absent from src/; packet type of a
panel data frame, 0x01 per spec section 3. -/
def PACKET_TYPE_DATA : Nat := 0x01

/-- Modelled from the spec: const.py is absent from src/; packet type of a
system (ACK/NACK) frame, 0xC0 per spec section 3. -/
def PACKET_TYPE_SYSTEM : Nat := 0xC0

/-- Modelled from the spec: const.py is absent from src/; TLV terminator type
0xFFFF per spec section 3. -/
def DATA_TYPE_END : Nat := 0xFFFF

/-- Modelled from the spec: const.py is absent from src/; door-status TLV type
0x0100, taken from spec scenario S3. -/
def DATA_TYPE_DOOR_STATUS : Nat := 0x0100

/-- Modelled from the spec: const.py is absent from src/ and the value is not
given in the spec; distinct placeholder, no claim depends on the value. -/
def DATA_TYPE_INPUT_STATUS : Nat := 0x0101

/-- Modelled from the spec: const.py is absent from src/ and the value is not
given in the spec; distinct placeholder, no claim depends on the value. -/
def DATA_TYPE_OUTPUT_STATUS : Nat := 0x0102

/-- Modelled from the spec: const.py is absent from src/ and the value is not
given in the spec; distinct placeholder, no claim depends on the value. -/
def DATA_TYPE_AREA_STATUS : Nat := 0x0103

/-- Modelled from the spec: const.py is absent from src/ and the value is not
given in the spec; distinct placeholder, no claim depends on the value. -/
def DATA_TYPE_EVENT_READABLE : Nat := 0x0104

/-- Modelled from the spec: const.py is absent from src/; system command group
0xC0, taken from spec scenario S1's login frame. -/
def CMD_SYSTEM : Nat := 0xC0

/-- Modelled from the spec: const.py is absent from src/; login subcommand
0x02, taken from spec scenario S1's login frame. -/
def SUBCMD_LOGIN : Nat := 0x02

/-- Modelled from the spec: const.py is absent from src/ and the value is not
given in the spec; placeholder, no claim depends on the value. -/
def CMD_DOOR : Nat := 0x20

/-- Modelled from the spec: const.py is absent from src/ and the value is not
given in the spec; placeholder, no claim depends on the value. -/
def SUBCMD_LOCK_DOOR : Nat := 0x21

/-- Modelled from the spec: const.py is absent from src/ and the value is not
given in the spec; placeholder, no claim depends on the value. -/
def SUBCMD_REQUEST_DOOR_STATUS : Nat := 0x22

/-- Modelled from the spec: const.py is absent from src/ and the value is not
given in the spec; placeholder, no claim depends on the value. -/
def CMD_AREA : Nat := 0x40

/-- Modelled from the spec: const.py is absent from src/ and the vendor arm
subcommand codes are not given; distinct placeholder, no claim depends on the
value. -/
def SUBCMD_ARM_NORMAL : Nat := 0x41

/-- Modelled from the spec: const.py is absent from src/ and the vendor arm
subcommand codes are not given; distinct placeholder, no claim depends on the
value. -/
def SUBCMD_ARM_FORCE : Nat := 0x42

/-- Modelled from the spec: const.py is absent from src/ and the vendor arm
subcommand codes are not given; distinct placeholder, no claim depends on the
value. -/
def SUBCMD_ARM_STAY : Nat := 0x43

/-- Modelled from the spec: const.py is absent from src/ and the vendor arm
subcommand codes are not given; distinct placeholder, no claim depends on the
value. -/
def SUBCMD_ARM_INSTANT : Nat := 0x44

/-- Modelled from the spec: const.py is absent from src/; the door lock-state
constant compared by is_locked, 1 per spec scenario S3. -/
def DOOR_LOCKED : Nat := 1

/-- Modelled from the spec: const.py is absent from src/ and the value is not
given in the spec; placeholder, no claim depends on the value. -/
def DOOR_STATE_CLOSED : Nat := 0

/-- Modelled from the spec: const.py is absent from src/ and the value is not
given in the spec; placeholder, no claim depends on the value. -/
def INPUT_OPEN : Nat := 1

/-- Modelled from the spec: const.py is absent from src/ and the value is not
given in the spec; placeholder, no claim depends on the value. -/
def OUTPUT_OFF : Nat := 0

/-- Modelled from the spec: const.py is absent from src/ and the value is not
given in the spec; placeholder, no claim depends on the value. -/
def AREA_ARMED : Nat := 1

/-- Little-endian 16-bit value of two bytes, as struct.unpack of a u16. -/
def le16 (a b : Nat) : Nat := a + 256 * b

/-- Little-endian 32-bit value of four bytes, as struct.unpack of a u32. -/
def le32 (a b c d : Nat) : Nat :=
  a + 256 * b + 65536 * c + 16777216 * d

/-- Little-endian 16-bit encoding, as struct.pack of a u16. -/
def pack16 (n : Nat) : List Nat := [n % 256, n / 256 % 256]

/-- Little-endian 32-bit encoding, as struct.pack of a u32. -/
def pack32 (n : Nat) : List Nat :=
  [n % 256, n / 256 % 256, n / 65536 % 256, n / 16777216 % 256]

/-- One shift-and-conditional-xor round of the inner loop of
ProtegeClient._calculate_crc16. -/
def crcRound (crc : Nat) : Nat :=
  if crc &&& 0x8000 ≠ 0 then ((crc <<< 1) ^^^ 0x1021) &&& 0xFFFF
  else (crc <<< 1) &&& 0xFFFF

/-- Embedding of ProtegeClient._calculate_crc16: CRC-16-CCITT with polynomial
0x1021, initial value 0xFFFF, no reflection, no final xor. -/
def calculate_crc16 (data : List Nat) : Nat :=
  data.foldl (fun crc byte => crcRound^[8] (crc ^^^ (byte <<< 8))) 0xFFFF

/-- Embedding of ProtegeClient._create_packet: magic, little-endian total
length, packet type, format byte 0, payload, then a checksum whose shape is
selected by checksum_type (1 = 8-bit sum, 2 = CRC-16, other = none). -/
def create_packet (packet_type : Nat) (data : List Nat) (checksum_type : Nat) :
    List Nat :=
  let checksum_len := if checksum_type = 1 then 1 else if checksum_type = 2 then 2 else 0
  let total_length := 2 + 2 + 1 + 1 + data.length + checksum_len
  let pkt := [0x49, 0x43] ++ pack16 total_length ++ [packet_type, 0x00] ++ data
  if checksum_type = 1 then pkt ++ [pkt.sum % 256]
  else if checksum_type = 2 then pkt ++ pack16 (calculate_crc16 pkt)
  else pkt

/-- Outcome of one call of ProtegeClient._read_packet on a byte stream. -/
inductive ReadOutcome where
  | ok (packet : List Nat) (rest : List Nat)
  | badFrame (rest : List Nat)
  | eof
  deriving Repr, DecidableEq

/-- Embedding of ProtegeClient._read_packet over an explicit byte stream: read
two magic bytes, the little-endian length, validate 6 ≤ length ≤ 1024, then
read the remaining length - 4 bytes.  A stream too short for a readexactly is
the IncompleteReadError path (eof: connected is cleared and None returned);
a bad magic or a bad length returns None with the stream advanced past the
consumed bytes and the connection left up.  No checksum is inspected. -/
def read_packet (s : List Nat) : ReadOutcome :=
  match s with
  | a :: b :: s2 =>
    if a = 0x49 ∧ b = 0x43 then
      match s2 with
      | l0 :: l1 :: s4 =>
        let length := le16 l0 l1
        if length < 6 ∨ length > 1024 then ReadOutcome.badFrame s4
        else if s4.length < length - 4 then ReadOutcome.eof
        else ReadOutcome.ok (a :: b :: l0 :: l1 :: s4.take (length - 4))
               (s4.drop (length - 4))
      | _ => ReadOutcome.eof
    else ReadOutcome.badFrame s2
  | _ => ReadOutcome.eof

/-- Embedding of ProtegeClient._is_ack: a packet of at least eight bytes whose
type byte is SYSTEM and whose first two data bytes are 0xFF, 0x00. -/
def is_ack (packet : List Nat) : Bool :=
  if packet.length < 8 then false
  else if packet.getD 4 0 ≠ PACKET_TYPE_SYSTEM then false
  else (packet.getD 6 0 == 0xFF) && (packet.getD 7 0 == 0x00)

/-- Result of the Python bytes.decode with ascii codec and errors ignored:
bytes at or above 128 are dropped, the rest stand for their characters. -/
def ascii_ignore (bs : List Nat) : List Nat := bs.filter (fun b => b < 128)

/-- Decoded door record, the dict built by _parse_door_status_data. -/
structure DoorStatus where
  index : Nat
  lock_state : Nat
  door_state : Nat
  is_locked : Bool
  is_open : Bool
  deriving Repr, DecidableEq

/-- Decoded input record, the dict built by _parse_input_status_data. -/
structure InputStatus where
  index : Nat
  reference : List Nat
  state : Nat
  bypass : Nat
  is_open : Bool
  is_bypassed : Bool
  deriving Repr, DecidableEq

/-- Decoded output record, the dict built by _parse_output_status_data. -/
structure OutputStatus where
  index : Nat
  reference : List Nat
  state : Nat
  is_on : Bool
  deriving Repr, DecidableEq

/-- Decoded area record, the dict built by _parse_area_status_data. -/
structure AreaStatus where
  index : Nat
  state : Nat
  tamper_state : Nat
  flags : Nat
  is_armed : Bool
  alarm_active : Bool
  deriving Repr, DecidableEq

/-- Embedding of ProtegeClient._parse_door_status_data: u32 index then two
state bytes; none models the struct.error or IndexError the Python code
raises when fewer than six bytes are supplied. -/
def parse_door_status_data (data : List Nat) : Option DoorStatus :=
  if 6 ≤ data.length then
    some { index := le32 (data.getD 0 0) (data.getD 1 0) (data.getD 2 0) (data.getD 3 0)
           lock_state := data.getD 4 0
           door_state := data.getD 5 0
           is_locked := data.getD 4 0 == DOOR_LOCKED
           is_open := data.getD 5 0 != DOOR_STATE_CLOSED }
  else none

/-- Embedding of ProtegeClient._parse_input_status_data: u32 index, eight
reference bytes, a state byte and a bypass byte; none models the exception
raised when fewer than fourteen bytes are supplied. -/
def parse_input_status_data (data : List Nat) : Option InputStatus :=
  if 14 ≤ data.length then
    some { index := le32 (data.getD 0 0) (data.getD 1 0) (data.getD 2 0) (data.getD 3 0)
           reference := ascii_ignore ((data.drop 4).take 8)
           state := data.getD 12 0
           bypass := data.getD 13 0
           is_open := data.getD 12 0 == INPUT_OPEN
           is_bypassed := (data.getD 13 0) &&& 1 != 0 }
  else none

/-- Embedding of ProtegeClient._parse_output_status_data: u32 index, eight
reference bytes and a state byte; none models the exception raised when fewer
than thirteen bytes are supplied. -/
def parse_output_status_data (data : List Nat) : Option OutputStatus :=
  if 13 ≤ data.length then
    some { index := le32 (data.getD 0 0) (data.getD 1 0) (data.getD 2 0) (data.getD 3 0)
           reference := ascii_ignore ((data.drop 4).take 8)
           state := data.getD 12 0
           is_on := data.getD 12 0 != OUTPUT_OFF }
  else none

/-- Embedding of ProtegeClient._parse_area_status_data: u32 index, a state
byte, a tamper byte and a flags byte; none models the exception raised when
fewer than seven bytes are supplied. -/
def parse_area_status_data (data : List Nat) : Option AreaStatus :=
  if 7 ≤ data.length then
    some { index := le32 (data.getD 0 0) (data.getD 1 0) (data.getD 2 0) (data.getD 3 0)
           state := data.getD 4 0
           tamper_state := data.getD 5 0
           flags := data.getD 6 0
           is_armed := decide (AREA_ARMED ≤ data.getD 4 0)
           alarm_active := (data.getD 6 0) &&& 1 != 0 }
  else none

/-- Lookup in a Python dict modelled as an insertion-ordered association
list. -/
def dictGet {α : Type} (l : List (Nat × α)) (k : Nat) : Option α :=
  (l.find? (fun p => p.1 == k)).map Prod.snd

/-- Assignment in a Python dict modelled as an insertion-ordered association
list: an existing key is overwritten in place, a new key is appended. -/
def dictInsert {α : Type} (l : List (Nat × α)) (k : Nat) (v : α) :
    List (Nat × α) :=
  if l.any (fun p => p.1 == k) then
    l.map (fun p => if p.1 = k then (k, v) else p)
  else l ++ [(k, v)]

/-- The four entity caches of a ProtegeClient instance. -/
structure ClientState where
  doors : List (Nat × DoorStatus)
  inputs : List (Nat × InputStatus)
  outputs : List (Nat × OutputStatus)
  areas : List (Nat × AreaStatus)
  deriving Repr, DecidableEq

/-- The registered callback lists of a ProtegeClient instance, in registration
order; callbacks are identified by opaque numeric ids. -/
structure Callbacks where
  door : List Nat
  input : List Nat
  output : List Nat
  area : List Nat
  event : List Nat
  deriving Repr, DecidableEq

/-- One observable callback invocation performed while processing a DATA
packet. -/
inductive CbEvent where
  | door (cb : Nat) (r : DoorStatus)
  | input (cb : Nat) (r : InputStatus)
  | output (cb : Nat) (r : OutputStatus)
  | area (cb : Nat) (r : AreaStatus)
  | event (cb : Nat) (text : List Nat)
  deriving Repr, DecidableEq

/-- Body of one iteration of _process_data_packet's loop for one TLV record:
the cache mutation and listener invocations for a recognized record type,
nothing for an unknown type, and error where a record parser would raise an
exception out of _process_data_packet. -/
def dispatch_record (cbs : Callbacks) (st : ClientState) (t : Nat)
    (data : List Nat) : Except Unit (ClientState × List CbEvent) :=
  if t = DATA_TYPE_DOOR_STATUS then
    match parse_door_status_data data with
    | none => Except.error ()
    | some r =>
      Except.ok ({ st with doors := dictInsert st.doors r.index r },
        cbs.door.map (fun c => CbEvent.door c r))
  else if t = DATA_TYPE_INPUT_STATUS then
    match parse_input_status_data data with
    | none => Except.error ()
    | some r =>
      Except.ok ({ st with inputs := dictInsert st.inputs r.index r },
        cbs.input.map (fun c => CbEvent.input c r))
  else if t = DATA_TYPE_OUTPUT_STATUS then
    match parse_output_status_data data with
    | none => Except.error ()
    | some r =>
      Except.ok ({ st with outputs := dictInsert st.outputs r.index r },
        cbs.output.map (fun c => CbEvent.output c r))
  else if t = DATA_TYPE_AREA_STATUS then
    match parse_area_status_data data with
    | none => Except.error ()
    | some r =>
      Except.ok ({ st with areas := dictInsert st.areas r.index r },
        cbs.area.map (fun c => CbEvent.area c r))
  else if t = DATA_TYPE_EVENT_READABLE then
    Except.ok (st, cbs.event.map
      (fun c => CbEvent.event c (ascii_ignore data.dropLast)))
  else Except.ok (st, [])

/-- TLV scanning loop of _process_data_packet over the byte suffix that starts
at the current position: the Python loop runs while at least four bytes remain
(pos < len(packet) - 3), reads a little-endian type, stops at the terminator,
reads a length byte and the value (the slice truncating like Python slicing),
and dispatches the record. -/
def process_loop (cbs : Callbacks) :
    ClientState → List Nat → Except Unit (ClientState × List CbEvent)
  | st, t0 :: t1 :: dl :: b :: rest =>
    let t := le16 t0 t1
    if t = DATA_TYPE_END then Except.ok (st, [])
    else
      match dispatch_record cbs st t ((b :: rest).take dl) with
      | Except.error e => Except.error e
      | Except.ok (st2, evs) =>
        match process_loop cbs st2 ((b :: rest).drop dl) with
        | Except.error e => Except.error e
        | Except.ok (st3, evs2) => Except.ok (st3, evs ++ evs2)
  | st, _ => Except.ok (st, [])
  termination_by _ l => l.length
  decreasing_by
    simp only [List.length_drop, List.length_cons]
    omega

/-- Embedding of ProtegeClient._process_data_packet: scan the TLV records of
a DATA packet starting at byte offset 6; error models an exception escaping
to the packet reader's catch-all handler. -/
def process_data_packet (cbs : Callbacks) (st : ClientState)
    (packet : List Nat) : Except Unit (ClientState × List CbEvent) :=
  process_loop cbs st (packet.drop 6)

/-- Success mirror of process_loop: whether scanning the TLV records of a data
section raises no exception. -/
def record_parses (t : Nat) (data : List Nat) : Bool :=
  if t = DATA_TYPE_DOOR_STATUS then (parse_door_status_data data).isSome
  else if t = DATA_TYPE_INPUT_STATUS then (parse_input_status_data data).isSome
  else if t = DATA_TYPE_OUTPUT_STATUS then (parse_output_status_data data).isSome
  else if t = DATA_TYPE_AREA_STATUS then (parse_area_status_data data).isSome
  else true

/-- Whether the whole TLV scan of a data section succeeds, mirroring which
streams make process_loop return ok. -/
def section_parses : List Nat → Bool
  | t0 :: t1 :: dl :: b :: rest =>
    let t := le16 t0 t1
    if t = DATA_TYPE_END then true
    else if record_parses t ((b :: rest).take dl) then
      section_parses ((b :: rest).drop dl)
    else false
  | _ => true
  termination_by l => l.length
  decreasing_by
    simp only [List.length_drop, List.length_cons]
    omega

/-- The ACK frame written by ProtegeClient._send_ack. -/
def ack_packet : List Nat :=
  create_packet PACKET_TYPE_SYSTEM [0xFF, 0x00] 1

/-- One observable action of the packet reader loop. -/
inductive ReaderEvent where
  | enqueued (packet : List Nat)
  | processed (evs : List CbEvent)
  | ackSent (packet : List Nat)
  | parseErrorLogged
  | dropped
  deriving Repr, DecidableEq

/-- Body of one iteration of _packet_reader for one decoded packet: SYSTEM and
COMMAND packets are put on the response queue, a DATA packet is processed and
then acknowledged; an exception out of processing is caught by the loop's
handler, which logs it and continues without sending the ACK. -/
def handle_packet (cbs : Callbacks) (st : ClientState) (packet : List Nat) :
    ClientState × List ReaderEvent :=
  if packet.length < 6 then (st, [])
  else
    let packet_type := packet.getD 4 0
    if packet_type = PACKET_TYPE_SYSTEM then (st, [ReaderEvent.enqueued packet])
    else if packet_type = PACKET_TYPE_DATA then
      match process_data_packet cbs st packet with
      | Except.ok (st2, evs) =>
        (st2, [ReaderEvent.processed evs, ReaderEvent.ackSent ack_packet])
      | Except.error _ => (st, [ReaderEvent.parseErrorLogged])
    else if packet_type = PACKET_TYPE_COMMAND then
      (st, [ReaderEvent.enqueued packet])
    else (st, [])

/-- Embedding of the _packet_reader task over a finite byte stream: decode
frames until the stream is exhausted or the connection is marked lost, and
dispatch each one; the middle component of the result is the final value of
self.connected, the last is the trace of observable actions in order. -/
def packet_reader (cbs : Callbacks) (st : ClientState) (s : List Nat) :
    ClientState × Bool × List ReaderEvent :=
  match h : read_packet s with
  | ReadOutcome.eof => (st, false, [])
  | ReadOutcome.badFrame rest =>
    let r := packet_reader cbs st rest
    (r.1, r.2.1, ReaderEvent.dropped :: r.2.2)
  | ReadOutcome.ok packet rest =>
    let hp := handle_packet cbs st packet
    let r := packet_reader cbs hp.1 rest
    (r.1, r.2.1, hp.2 ++ r.2.2)
  termination_by s.length
  decreasing_by
    · rcases s with _ | ⟨a, _ | ⟨b, s2⟩⟩
      · simp [read_packet] at h
      · simp [read_packet] at h
      · simp only [read_packet] at h
        split at h
        · rcases s2 with _ | ⟨l0, _ | ⟨l1, s4⟩⟩
          · simp at h
          · simp at h
          · simp only at h
            split at h
            · cases h
              simp only [List.length_cons]
              omega
            · split at h <;> cases h
        · cases h
          simp only [List.length_cons]
          omega
    · rcases s with _ | ⟨a, _ | ⟨b, s2⟩⟩
      · simp [read_packet] at h
      · simp [read_packet] at h
      · simp only [read_packet] at h
        split at h
        · rcases s2 with _ | ⟨l0, _ | ⟨l1, s4⟩⟩
          · simp at h
          · simp at h
          · simp only at h
            split at h
            · cases h
            · split at h
              · cases h
              · cases h
                simp only [List.length_drop, List.length_cons]
                omega
        · cases h

/-- Embedding of ProtegeClient._send_packet's observable outcome: the waiter
receives whatever single frame the response queue delivers within the five
second window, or None on timeout; when the client is not connected nothing is
sent and None is returned at once.  The argument response stands for the frame
the packet reader enqueues, none for a timeout. -/
def send_packet (connected : Bool) (response : Option (List Nat)) :
    Option (List Nat) :=
  if connected then response else none

/-- The COMMAND frame written by ProtegeClient.lock_door for a door index. -/
def lock_door_packet (door_index : Nat) : List Nat :=
  create_packet PACKET_TYPE_COMMAND
    ([CMD_DOOR, SUBCMD_LOCK_DOOR] ++ pack32 door_index) 1

/-- Embedding of ProtegeClient.lock_door's return value: True exactly when a
response frame of any kind arrived (response is not None), with no inspection
of the frame. -/
def lock_door (connected : Bool) (response : Option (List Nat)) : Bool :=
  (send_packet connected response).isSome

/-- TLV scan of ProtegeClient._parse_door_status: walk the records while at
least four bytes remain, stop at the terminator, and return the value slice of
the first door-status record. -/
def door_status_scan : List Nat → Option (List Nat)
  | t0 :: t1 :: dl :: b :: rest =>
    let t := le16 t0 t1
    if t = DATA_TYPE_END then none
    else if t = DATA_TYPE_DOOR_STATUS then some ((b :: rest).take dl)
    else door_status_scan ((b :: rest).drop dl)
  | _ => none
  termination_by l => l.length
  decreasing_by
    simp only [List.length_drop, List.length_cons]
    omega

/-- Embedding of ProtegeClient._parse_door_status combined with the exception
handler of get_door_status: packets shorter than ten bytes, packets whose type
byte is not DATA, packets without a door-status record, and record slices on
which _parse_door_status_data raises, all end as None in get_door_status. -/
def parse_door_status (packet : List Nat) : Option DoorStatus :=
  if packet.length < 10 then none
  else if packet.getD 4 0 ≠ PACKET_TYPE_DATA then none
  else
    match door_status_scan (packet.drop 6) with
    | none => none
    | some data => parse_door_status_data data

/-- The COMMAND frame written by ProtegeClient.get_door_status for a door
index. -/
def get_door_status_packet (door_index : Nat) : List Nat :=
  create_packet PACKET_TYPE_COMMAND
    ([CMD_DOOR, SUBCMD_REQUEST_DOOR_STATUS] ++ pack32 door_index) 1

/-- Embedding of ProtegeClient.get_door_status's return value as a function of
the response frame delivered to _send_packet (none standing for a timeout or a
lost connection): no response gives None, otherwise the parse, with any parse
exception caught and turned into None. -/
def get_door_status (connected : Bool) (response : Option (List Nat)) :
    Option DoorStatus :=
  match send_packet connected response with
  | none => none
  | some packet => parse_door_status packet

/-- One character of a Python pin string together with the host Unicode
database facts that ProtegeClient.login consults: isdigit records what the
Python str.isdigit() builtin returns for it (true for every Unicode digit,
not only ASCII), and decimal records what int() of the one-character string
yields — some value for a decimal digit (category Nd), none where int()
raises ValueError (digits such as superscripts that are not decimal).  The
Unicode database lives in the host, outside this repository, so the
classification is carried as data, constrained by PyChar.wf below. -/
structure PyChar where
  char : Char
  isdigit : Bool
  decimal : Option Nat
  deriving Repr, DecidableEq

/-- Facts of the Python Unicode database that the login proofs rely on: a
decimal digit has value at most nine and satisfies isdigit, and on the ASCII
range the classification is fully determined — isdigit holds exactly for the
characters 0 to 9 and int() yields their value. -/
def PyChar.wf (c : PyChar) : Bool :=
  (match c.decimal with
   | some v => decide (v ≤ 9) && c.isdigit
   | none => true) &&
  (if c.char.toNat < 128 then
    (c.isdigit == c.char.isDigit) &&
      (c.decimal == if c.char.isDigit then some (c.char.toNat - 48) else none)
   else true)

/-- Elementwise conversion that aborts at the first failure, as a Python list
comprehension raising out of int() does. -/
def option_map_all {α β : Type} (f : α → Option β) : List α → Option (List β)
  | [] => some []
  | a :: l =>
    match f a with
    | none => none
    | some b =>
      match option_map_all f l with
      | none => none
      | some bs => some (b :: bs)

/-- Digit extraction of ProtegeClient.login: int(d) for every character of
the pin with d.isdigit(), in order; none models the ValueError that int()
raises on a digit that is not decimal, which login's handler catches,
returning False before anything is sent. -/
def py_digit_values (pin : List PyChar) : Option (List Nat) :=
  option_map_all (fun c => c.decimal) (pin.filter (fun c => c.isdigit))

/-- Embedding of ProtegeClient.login up to the packet write: none when the
digit extraction raises or when the pin holds no digit (login logs an error
and returns False without sending anything), otherwise the login COMMAND
frame that is written, its digits truncated to six. -/
def login_packet (pin : List PyChar) : Option (List Nat) :=
  match py_digit_values pin with
  | none => none
  | some ds0 =>
    let ds := if ds0.length > 6 then ds0.take 6 else ds0
    if ds.length = 0 then none
    else some (create_packet PACKET_TYPE_COMMAND
      ([CMD_SYSTEM, SUBCMD_LOGIN] ++ (ds ++ [0xFF])) 1)

/-- Mode table of ProtegeClient.arm_area: mode_map.get with the normal-arm
subcommand as the default for a key that is absent. -/
def arm_subcmd (mode : String) : Nat :=
  if mode = "normal" then SUBCMD_ARM_NORMAL
  else if mode = "force" then SUBCMD_ARM_FORCE
  else if mode = "stay" then SUBCMD_ARM_STAY
  else if mode = "instant" then SUBCMD_ARM_INSTANT
  else SUBCMD_ARM_NORMAL

/-- The COMMAND frame written by ProtegeClient.arm_area for an area index and
a mode string. -/
def arm_area_packet (area_index : Nat) (mode : String) : List Nat :=
  create_packet PACKET_TYPE_COMMAND
    ([CMD_AREA, arm_subcmd mode] ++ pack32 area_index) 1

/-- Embedding of ProtegeClient.arm_area's return value: True exactly when a
response frame of any kind arrived, independently of the mode string. -/
def arm_area (connected : Bool) (mode : String)
    (response : Option (List Nat)) : Bool :=
  (send_packet connected response).isSome

/-- A SYSTEM NACK frame carrying a little-endian 16-bit error code, as the
panel sends it. -/
def nack_response (code : Nat) : List Nat :=
  create_packet PACKET_TYPE_SYSTEM [0xFF, 0xFF, code % 256, code / 256] 1

/-- Client state with all four caches empty, as after construction. -/
def empty_state : ClientState := ⟨[], [], [], []⟩

/-- Callback registry with no listener registered. -/
def no_callbacks : Callbacks := ⟨[], [], [], [], []⟩

/-- TLV record encoding: little-endian type, length byte, value bytes. -/
def encode_tlv (t : Nat) (v : List Nat) : List Nat :=
  t % 256 :: t / 256 :: v.length :: v

/-- A received frame with the magic bytes, a length field within bounds that
matches the byte count, and a correct 8-bit-sum trailer 0x54 for its first
eight bytes, except that the trailer byte has been corrupted to 0x55. -/
def corrupt_frame : List Nat :=
  [0x49, 0x43, 0x09, 0x00, 0xC0, 0x00, 0xFF, 0x00, 0x55]

/-- A DATA frame whose single door-status TLV record declares only two value
bytes, so that _parse_door_status_data raises inside _process_data_packet. -/
def bad_door_frame : List Nat :=
  [0x49, 0x43, 0x0C, 0x00, 0x01, 0x00, 0x00, 0x01, 0x02, 0xAA, 0xBB, 0x00]

/-- A stream that opens with two junk bytes that fail the magic check, then
carries one well-formed SYSTEM frame. -/
def junk_then_frame : List Nat := 0x00 :: 0x00 :: ack_packet

/-- Example mode string outside the arm_area mode table. -/
def mode_away : String := "away"

/-- Example all-ASCII pin, two letters around three digits, with the Python
classification of each character. -/
def pin_ascii : List PyChar :=
  [⟨'a', false, none⟩, ⟨'4', true, some 4⟩, ⟨'2', true, some 2⟩,
   ⟨'7', true, some 7⟩, ⟨'z', false, none⟩]

/-- Example pin holding the single Arabic-Indic digit three, U+0663: in
Python its str.isdigit() is true and int() of it yields 3, though it is not
an ASCII digit character. -/
def pin_arabic : List PyChar := [⟨'٣', true, some 3⟩]

/-- Example pin of an ASCII digit one followed by the superscript two,
U+00B2: in Python the superscript's str.isdigit() is true but int() of it
raises ValueError. -/
def pin_super : List PyChar := [⟨'1', true, some 1⟩, ⟨'²', true, none⟩]

/-- Count of ACK transmissions in a reader trace. -/
def countAcks (evs : List ReaderEvent) : Nat :=
  evs.countP (fun e => match e with
    | ReaderEvent.ackSent _ => true
    | _ => false)

/-- Well-formedness of a frame as a byte string: magic bytes, length field
within 6..1024 and equal to the byte count of the whole frame. -/
def valid_frame (p : List Nat) : Bool :=
  match p with
  | a :: b :: l0 :: l1 :: rest =>
    (a == 0x49) && (b == 0x43) && decide (6 ≤ le16 l0 l1) &&
      decide (le16 l0 l1 ≤ 1024) && (rest.length + 4 == le16 l0 l1)
  | _ => false

/-- A well-formed DATA frame carrying one full door-status TLV record for
door index five (lock_state 1, door_state 2). -/
def good_door_frame : List Nat :=
  [0x49, 0x43, 17, 0x00, 0x01, 0x00] ++
    encode_tlv DATA_TYPE_DOOR_STATUS [5, 0, 0, 0, 1, 2, 0, 0]

/-- Decoded record of the door-status TLV with value bytes 5 0 0 0 1 2 0 0. -/
def door_rec_example : DoorStatus := DoorStatus.mk 5 1 2 true true

/-- Callback registry with two door listeners, ids seven and eight, in that
registration order. -/
def cbs_example : Callbacks := Callbacks.mk [7, 8] [] [] [] []

/-- Frame prolog and payload of a packet before its 8-bit-sum trailer. -/
def packet_head (t : Nat) (p : List Nat) : List Nat :=
  0x49 :: 0x43 :: (7 + p.length) % 256 :: (7 + p.length) / 256 % 256 ::
    t :: 0x00 :: p

/-- Shape of an encoded packet in default 8-bit-sum mode: the prolog and
payload followed by their sum mod 256. -/
theorem create_packet_one (t : Nat) (p : List Nat) :
    create_packet t p 1 = packet_head t p ++ [(packet_head t p).sum % 256] := by
  simp only [create_packet, packet_head, pack16]
  norm_num
  rw [show 6 + p.length + 1 = 7 + p.length from by omega]
  exact ⟨rfl, rfl, rfl⟩

/-- Encoded packets in 8-bit-sum mode are well formed whenever the payload
leaves the total length within the 1024-byte bound. -/
theorem valid_frame_create (t : Nat) (p : List Nat) (h : p.length ≤ 1017) :
    valid_frame (create_packet t p 1) = true := by
  rw [create_packet_one]
  simp only [packet_head, List.cons_append, List.nil_append, valid_frame,
    le16, List.length_append, List.length_cons, List.length_nil]
  simp only [Bool.and_eq_true, beq_iff_eq, decide_eq_true_eq, true_and]
  omega

/-- Well-formed frames expose their four leading bytes. -/
theorem valid_frame_shape (p : List Nat) (h : valid_frame p = true) :
    ∃ l0 l1 body, p = 0x49 :: 0x43 :: l0 :: l1 :: body ∧
      le16 l0 l1 = body.length + 4 ∧ 6 ≤ le16 l0 l1 ∧ le16 l0 l1 ≤ 1024 := by
  match p with
  | [] => simp [valid_frame] at h
  | [a] => simp [valid_frame] at h
  | [a, b] => simp [valid_frame] at h
  | [a, b, c] => simp [valid_frame] at h
  | a :: b :: l0 :: l1 :: body =>
    simp only [valid_frame, Bool.and_eq_true, beq_iff_eq, decide_eq_true_eq] at h
    obtain ⟨⟨⟨⟨ha, hb⟩, h6⟩, h10⟩, hL⟩ := h
    subst ha
    subst hb
    exact ⟨l0, l1, body, rfl, by omega, h6, h10⟩

/-- Reading from a stream that starts with a well-formed frame returns exactly
that frame and leaves the remainder of the stream; nothing beyond the magic
and the length field is inspected. -/
theorem read_packet_valid (p rest : List Nat) (h : valid_frame p = true) :
    read_packet (p ++ rest) = ReadOutcome.ok p rest := by
  obtain ⟨l0, l1, body, rfl, hlen, h6, h1024⟩ := valid_frame_shape p h
  simp only [List.cons_append, read_packet]
  rw [if_pos ⟨trivial, trivial⟩]
  rw [if_neg (by omega)]
  rw [if_neg (by simp [List.length_append]; omega)]
  have ht : le16 l0 l1 - 4 = body.length := by omega
  rw [ht, List.take_left, List.drop_left]

/-- The length of a well-formed frame is its length field, hence at least
six. -/
theorem valid_frame_length (p : List Nat) (h : valid_frame p = true) :
    6 ≤ p.length ∧ p.length = le16 (p.getD 2 0) (p.getD 3 0) := by
  obtain ⟨l0, l1, body, rfl, hlen, h6, h1024⟩ := valid_frame_shape p h
  simp only [List.length_cons, List.getD_cons_succ, List.getD_cons_zero]
  omega

/-- The type byte of an encoded packet sits at offset four. -/
theorem create_packet_type_byte (t : Nat) (p : List Nat) :
    (create_packet t p 1).getD 4 0 = t := by
  rw [create_packet_one]
  simp [packet_head]

/-- A record whose parser succeeds is dispatched without an exception. -/
theorem dispatch_record_ok_of (cbs : Callbacks) (st : ClientState) (t : Nat)
    (data : List Nat) (h : record_parses t data = true) :
    ∃ st2 evs, dispatch_record cbs st t data = Except.ok (st2, evs) := by
  by_cases h1 : t = DATA_TYPE_DOOR_STATUS
  · simp only [record_parses, dispatch_record, if_pos h1] at h ⊢
    obtain ⟨r, hr⟩ := Option.isSome_iff_exists.mp h
    rw [hr]
    exact ⟨_, _, rfl⟩
  simp only [record_parses, dispatch_record, if_neg h1] at h ⊢
  by_cases h2 : t = DATA_TYPE_INPUT_STATUS
  · simp only [if_pos h2] at h ⊢
    obtain ⟨r, hr⟩ := Option.isSome_iff_exists.mp h
    rw [hr]
    exact ⟨_, _, rfl⟩
  simp only [if_neg h2] at h ⊢
  by_cases h3 : t = DATA_TYPE_OUTPUT_STATUS
  · simp only [if_pos h3] at h ⊢
    obtain ⟨r, hr⟩ := Option.isSome_iff_exists.mp h
    rw [hr]
    exact ⟨_, _, rfl⟩
  simp only [if_neg h3] at h ⊢
  by_cases h4 : t = DATA_TYPE_AREA_STATUS
  · simp only [if_pos h4] at h ⊢
    obtain ⟨r, hr⟩ := Option.isSome_iff_exists.mp h
    rw [hr]
    exact ⟨_, _, rfl⟩
  simp only [if_neg h4] at h ⊢
  by_cases h5 : t = DATA_TYPE_EVENT_READABLE
  · simp only [if_pos h5]
    exact ⟨_, _, rfl⟩
  · simp only [if_neg h5]
    exact ⟨_, _, rfl⟩

/-- A record whose parser raises makes the dispatch raise. -/
theorem dispatch_record_error_of (cbs : Callbacks) (st : ClientState) (t : Nat)
    (data : List Nat) (h : record_parses t data = false) :
    dispatch_record cbs st t data = Except.error () := by
  by_cases h1 : t = DATA_TYPE_DOOR_STATUS
  · simp only [record_parses, dispatch_record, if_pos h1] at h ⊢
    have hn : parse_door_status_data data = none :=
      Option.not_isSome_iff_eq_none.mp (by simp [h])
    rw [hn]
  · simp only [record_parses, dispatch_record, if_neg h1] at h ⊢
    by_cases h2 : t = DATA_TYPE_INPUT_STATUS
    · simp only [if_pos h2] at h ⊢
      have hn : parse_input_status_data data = none :=
        Option.not_isSome_iff_eq_none.mp (by simp [h])
      rw [hn]
    · simp only [if_neg h2] at h ⊢
      by_cases h3 : t = DATA_TYPE_OUTPUT_STATUS
      · simp only [if_pos h3] at h ⊢
        have hn : parse_output_status_data data = none :=
          Option.not_isSome_iff_eq_none.mp (by simp [h])
        rw [hn]
      · simp only [if_neg h3] at h ⊢
        by_cases h4 : t = DATA_TYPE_AREA_STATUS
        · simp only [if_pos h4] at h ⊢
          have hn : parse_area_status_data data = none :=
            Option.not_isSome_iff_eq_none.mp (by simp [h])
          rw [hn]
        · simp only [if_neg h4] at h
          exact absurd h (by simp)

/-- A dispatched record of a type outside the five recognized ones leaves the
state untouched and invokes nothing. -/
theorem dispatch_record_unknown (cbs : Callbacks) (st : ClientState) (t : Nat)
    (data : List Nat) (h1 : t ≠ DATA_TYPE_DOOR_STATUS)
    (h2 : t ≠ DATA_TYPE_INPUT_STATUS) (h3 : t ≠ DATA_TYPE_OUTPUT_STATUS)
    (h4 : t ≠ DATA_TYPE_AREA_STATUS) (h5 : t ≠ DATA_TYPE_EVENT_READABLE) :
    dispatch_record cbs st t data = Except.ok (st, []) := by
  simp only [dispatch_record, if_neg h1, if_neg h2, if_neg h3, if_neg h4,
    if_neg h5]

/-- A data section whose scan check succeeds is processed without an
exception, from any cache state. -/
theorem process_loop_ok_of_parses (cbs : Callbacks) :
    ∀ r : List Nat, section_parses r = true →
      ∀ st, ∃ st2 evs, process_loop cbs st r = Except.ok (st2, evs) := by
  intro r
  induction r using section_parses.induct with
  | case1 t0 t1 dl b rest t hEnd =>
    intro _ st
    have hEnd9 : le16 t0 t1 = DATA_TYPE_END := hEnd
    rw [process_loop.eq_def]
    simp only
    rw [if_pos hEnd9]
    exact ⟨_, _, rfl⟩
  | case2 t0 t1 dl b rest t hne hrec ih =>
    intro h st
    have hne9 : ¬le16 t0 t1 = DATA_TYPE_END := hne
    have hrec9 : record_parses (le16 t0 t1) (List.take dl (b :: rest)) = true := hrec
    rw [section_parses.eq_def] at h
    simp only at h
    rw [if_neg hne9, if_pos hrec9] at h
    obtain ⟨st2, evs, hd⟩ := dispatch_record_ok_of cbs st _ _ hrec9
    obtain ⟨st3, evs2, hp⟩ := ih h st2
    rw [process_loop.eq_def]
    simp only
    rw [if_neg hne9, hd]
    simp only [hp]
    exact ⟨_, _, rfl⟩
  | case3 t0 t1 dl b rest t hne hfail =>
    intro h _
    have hne9 : ¬le16 t0 t1 = DATA_TYPE_END := hne
    have hfail9 : ¬record_parses (le16 t0 t1) (List.take dl (b :: rest)) = true := hfail
    rw [section_parses.eq_def] at h
    simp only at h
    rw [if_neg hne9, if_neg hfail9] at h
    cases h
  | case4 x hnot =>
    intro _ st
    rcases x with _ | ⟨a, _ | ⟨b, _ | ⟨c, _ | ⟨d, tl⟩⟩⟩⟩
    · rw [process_loop.eq_def]
      exact ⟨_, _, rfl⟩
    · rw [process_loop.eq_def]
      exact ⟨_, _, rfl⟩
    · rw [process_loop.eq_def]
      exact ⟨_, _, rfl⟩
    · rw [process_loop.eq_def]
      exact ⟨_, _, rfl⟩
    · exact absurd rfl (hnot a b c d tl)

/-- A data section whose scan check fails is processed with an exception, from
any cache state. -/
theorem process_loop_error_of_parses (cbs : Callbacks) :
    ∀ r : List Nat, section_parses r = false →
      ∀ st, process_loop cbs st r = Except.error () := by
  intro r
  induction r using section_parses.induct with
  | case1 t0 t1 dl b rest t hEnd =>
    intro h _
    have hEnd9 : le16 t0 t1 = DATA_TYPE_END := hEnd
    rw [section_parses.eq_def] at h
    simp only at h
    rw [if_pos hEnd9] at h
    cases h
  | case2 t0 t1 dl b rest t hne hrec ih =>
    intro h st
    have hne9 : ¬le16 t0 t1 = DATA_TYPE_END := hne
    have hrec9 : record_parses (le16 t0 t1) (List.take dl (b :: rest)) = true := hrec
    rw [section_parses.eq_def] at h
    simp only at h
    rw [if_neg hne9, if_pos hrec9] at h
    obtain ⟨st2, evs, hd⟩ := dispatch_record_ok_of cbs st _ _ hrec9
    rw [process_loop.eq_def]
    simp only
    rw [if_neg hne9, hd]
    simp only [ih h st2]
  | case3 t0 t1 dl b rest t hne hfail =>
    intro _ st
    have hne9 : ¬le16 t0 t1 = DATA_TYPE_END := hne
    have hfail9 : record_parses (le16 t0 t1) (List.take dl (b :: rest)) = false := by
      have := hfail
      simpa using this
    rw [process_loop.eq_def]
    simp only
    rw [if_neg hne9, dispatch_record_error_of cbs st _ _ hfail9]
  | case4 x hnot =>
    intro h _
    rcases x with _ | ⟨a, _ | ⟨b, _ | ⟨c, _ | ⟨d, tl⟩⟩⟩⟩
    · rw [section_parses.eq_def] at h
      cases h
    · rw [section_parses.eq_def] at h
      cases h
    · rw [section_parses.eq_def] at h
      cases h
    · rw [section_parses.eq_def] at h
      cases h
    · exact absurd rfl (hnot a b c d tl)

/-- The TLV loop stops at the two terminator bytes, whatever follows them. -/
theorem process_loop_term (cbs : Callbacks) (st : ClientState)
    (tail : List Nat) :
    process_loop cbs st (0xFF :: 0xFF :: tail) = Except.ok (st, []) := by
  rcases tail with _ | ⟨x, _ | ⟨y, tl⟩⟩
  · rw [process_loop.eq_def]
  · rw [process_loop.eq_def]
  · rw [process_loop.eq_def]
    simp [le16, DATA_TYPE_END]

/-- The TLV loop skips a record of a type outside the recognized ones and the
terminator, continuing with the rest of the section unchanged. -/
theorem process_loop_unknown (cbs : Callbacks) (st : ClientState) (t : Nat)
    (v next : List Nat) (hEnd : t ≠ DATA_TYPE_END)
    (h1 : t ≠ DATA_TYPE_DOOR_STATUS) (h2 : t ≠ DATA_TYPE_INPUT_STATUS)
    (h3 : t ≠ DATA_TYPE_OUTPUT_STATUS) (h4 : t ≠ DATA_TYPE_AREA_STATUS)
    (h5 : t ≠ DATA_TYPE_EVENT_READABLE) :
    process_loop cbs st (encode_tlv t v ++ next) = process_loop cbs st next := by
  have hle : le16 (t % 256) (t / 256) = t := by
    simp only [le16]
    omega
  rcases v with _ | ⟨v0, vtl⟩
  · rcases next with _ | ⟨n0, ntl⟩
    · simp only [encode_tlv, List.length_nil, List.append_nil]
      rw [process_loop.eq_def, process_loop.eq_def]
    · simp only [encode_tlv, List.length_nil, List.cons_append, List.nil_append]
      rw [process_loop.eq_def]
      simp only
      rw [hle, if_neg hEnd, List.take_zero,
        dispatch_record_unknown cbs st t [] h1 h2 h3 h4 h5, List.drop_zero]
      cases hres : process_loop cbs st (n0 :: ntl) with
      | error e =>
        cases e
        simp [hres]
      | ok res =>
        obtain ⟨st3, evs2⟩ := res
        simp [hres]
  · simp only [encode_tlv, List.length_cons, List.cons_append]
    rw [process_loop.eq_def]
    simp only
    rw [hle, if_neg hEnd, List.take_succ_cons, List.drop_succ_cons,
      List.take_left, List.drop_left,
      dispatch_record_unknown cbs st t (v0 :: vtl) h1 h2 h3 h4 h5]
    cases hres : process_loop cbs st next with
    | error e =>
      cases e
      simp [hres]
    | ok res =>
      obtain ⟨st3, evs2⟩ := res
      simp [hres]

/-- The TLV loop consumes a door-status record by replacing the cache entry at
the record's index and invoking every registered door listener once, in
registration order, before continuing with the rest of the section. -/
theorem process_loop_door (cbs : Callbacks) (st : ClientState)
    (data next : List Nat) (rec : DoorStatus)
    (hparse : parse_door_status_data data = some rec) :
    process_loop cbs st (encode_tlv DATA_TYPE_DOOR_STATUS data ++ next) =
      match process_loop cbs
          { st with doors := dictInsert st.doors rec.index rec } next with
      | Except.error e => Except.error e
      | Except.ok (st3, evs2) =>
        Except.ok (st3, cbs.door.map (fun c => CbEvent.door c rec) ++ evs2) := by
  rcases data with _ | ⟨d0, dtl⟩
  · simp [parse_door_status_data] at hparse
  · simp only [encode_tlv, DATA_TYPE_DOOR_STATUS, List.length_cons,
      List.cons_append]
    norm_num
    rw [process_loop.eq_def]
    simp only
    rw [show le16 0 1 = 256 from by simp [le16]]
    rw [if_neg (by simp [DATA_TYPE_END])]
    rw [List.take_succ_cons, List.drop_succ_cons, List.take_left,
      List.drop_left]
    rw [show (256 : Nat) = DATA_TYPE_DOOR_STATUS from rfl]
    rw [dispatch_record, if_pos rfl, hparse]

/-- A SYSTEM packet of at least six bytes is put on the response queue. -/
theorem handle_packet_system (cbs : Callbacks) (st : ClientState)
    (p : List Nat) (hlen : 6 ≤ p.length)
    (ht : p.getD 4 0 = PACKET_TYPE_SYSTEM) :
    handle_packet cbs st p = (st, [ReaderEvent.enqueued p]) := by
  simp only [handle_packet]
  rw [if_neg (by omega), if_pos ht]

/-- A DATA packet of at least six bytes whose section scans cleanly is
processed and then acknowledged with exactly one ACK frame. -/
theorem handle_packet_data_ok (cbs : Callbacks) (st : ClientState)
    (p : List Nat) (hlen : 6 ≤ p.length) (ht : p.getD 4 0 = PACKET_TYPE_DATA)
    (hsec : section_parses (p.drop 6) = true) :
    ∃ st2 evs, handle_packet cbs st p =
      (st2, [ReaderEvent.processed evs, ReaderEvent.ackSent ack_packet]) := by
  obtain ⟨st2, evs, hp⟩ := process_loop_ok_of_parses cbs (p.drop 6) hsec st
  refine ⟨st2, evs, ?_⟩
  simp only [handle_packet]
  rw [if_neg (by omega), if_neg (by rw [ht]; simp [PACKET_TYPE_DATA, PACKET_TYPE_SYSTEM]),
    if_pos ht]
  simp only [process_data_packet, hp]

/-- A DATA packet of at least six bytes whose section scan raises is logged
and dropped without an ACK. -/
theorem handle_packet_data_err (cbs : Callbacks) (st : ClientState)
    (p : List Nat) (hlen : 6 ≤ p.length) (ht : p.getD 4 0 = PACKET_TYPE_DATA)
    (hsec : section_parses (p.drop 6) = false) :
    handle_packet cbs st p = (st, [ReaderEvent.parseErrorLogged]) := by
  simp only [handle_packet]
  rw [if_neg (by omega), if_neg (by rw [ht]; simp [PACKET_TYPE_DATA, PACKET_TYPE_SYSTEM]),
    if_pos ht]
  simp only [process_data_packet, process_loop_error_of_parses cbs (p.drop 6) hsec st]

/-- The reader on an exhausted stream sees the incomplete-read path: connected
is cleared and the loop stops with no further action. -/
theorem packet_reader_eof (cbs : Callbacks) (st : ClientState) (s : List Nat)
    (h : read_packet s = ReadOutcome.eof) :
    packet_reader cbs st s = (st, false, []) := by
  rw [packet_reader.eq_def]
  split
  · rfl
  · rename_i rest h2
    rw [h] at h2
    cases h2
  · rename_i packet rest h2
    rw [h] at h2
    cases h2

/-- The reader on a stream opening with a frame the framer rejects drops the
consumed bytes and carries on with the remaining stream, connection intact. -/
theorem packet_reader_badFrame (cbs : Callbacks) (st : ClientState)
    (s rest : List Nat) (h : read_packet s = ReadOutcome.badFrame rest) :
    packet_reader cbs st s =
      ((packet_reader cbs st rest).1, (packet_reader cbs st rest).2.1,
        ReaderEvent.dropped :: (packet_reader cbs st rest).2.2) := by
  rw [packet_reader.eq_def]
  split
  · rename_i h2
    rw [h] at h2
    cases h2
  · rename_i rest2 h2
    rw [h] at h2
    cases h2
    rfl
  · rename_i packet rest2 h2
    rw [h] at h2
    cases h2

/-- The reader on a stream opening with a well-formed frame handles that frame
and continues with the remaining stream. -/
theorem packet_reader_step (cbs : Callbacks) (st : ClientState)
    (p s : List Nat) (hv : valid_frame p = true) :
    packet_reader cbs st (p ++ s) =
      ((packet_reader cbs (handle_packet cbs st p).1 s).1,
        (packet_reader cbs (handle_packet cbs st p).1 s).2.1,
        (handle_packet cbs st p).2 ++
          (packet_reader cbs (handle_packet cbs st p).1 s).2.2) := by
  rw [packet_reader.eq_def]
  split
  · rename_i h2
    rw [read_packet_valid p s hv] at h2
    cases h2
  · rename_i rest2 h2
    rw [read_packet_valid p s hv] at h2
    cases h2
  · rename_i packet rest2 h2
    rw [read_packet_valid p s hv] at h2
    cases h2
    rfl

/-- The reader stops once the stream is empty. -/
theorem packet_reader_nil (cbs : Callbacks) (st : ClientState) :
    packet_reader cbs st [] = (st, false, []) :=
  packet_reader_eof cbs st [] rfl

set_option maxRecDepth 4000

/-- C9: the CRC-16-CCITT function of the code (polynomial 0x1021, initial
value 0xFFFF, no reflection, no final xor) applied to the ASCII bytes of the
digit string one to nine yields exactly 0x29B1. -/
theorem c9_crc16_test_vector :
    calculate_crc16 [0x31, 0x32, 0x33, 0x34, 0x35, 0x36, 0x37, 0x38, 0x39]
      = 0x29B1 := by
  decide

/-- C10: for every mode string outside normal, force, stay and instant,
arm_area does not fail: the subcommand silently falls back to the normal arm,
the COMMAND frame written for the given area index equals the one written for
mode normal, and the returned value is the same for every response. -/
theorem c10_arm_area_unknown_mode_fallback (mode : String) (idx : Nat)
    (h1 : mode ≠ "normal") (h2 : mode ≠ "force") (h3 : mode ≠ "stay")
    (h4 : mode ≠ "instant") :
    arm_subcmd mode = SUBCMD_ARM_NORMAL ∧
    arm_area_packet idx mode = arm_area_packet idx "normal" ∧
    ∀ connected response,
      arm_area connected mode response = arm_area connected "normal" response := by
  have hs : arm_subcmd mode = SUBCMD_ARM_NORMAL := by
    simp only [arm_subcmd, if_neg h1, if_neg h2, if_neg h3, if_neg h4]
  refine ⟨hs, ?_, fun _ _ => rfl⟩
  simp only [arm_area_packet]
  rw [hs]
  simp [arm_subcmd]

/-- C10 witness: the fallback at the concrete unknown mode away and area
index three. -/
theorem c10_arm_area_unknown_mode_fallback_witness :
    arm_subcmd mode_away = SUBCMD_ARM_NORMAL ∧
    arm_area_packet 3 mode_away = arm_area_packet 3 "normal" ∧
    ∀ connected response,
      arm_area connected mode_away response = arm_area connected "normal" response :=
  c10_arm_area_unknown_mode_fallback mode_away 3 (by decide) (by decide)
    (by decide) (by decide)

/-- A value produced by the aborting elementwise conversion comes from some
element of the input list. -/
theorem option_map_all_mem {α β : Type} (f : α → Option β) :
    ∀ (l : List α) (l2 : List β), option_map_all f l = some l2 →
      ∀ b ∈ l2, ∃ a ∈ l, f a = some b := by
  intro l
  induction l with
  | nil =>
    intro l2 h b hb
    simp only [option_map_all] at h
    cases h
    simp at hb
  | cons a l ih =>
    intro l2 h b hb
    simp only [option_map_all] at h
    cases hfa : f a with
    | none =>
      rw [hfa] at h
      cases h
    | some b0 =>
      rw [hfa] at h
      cases hrec : option_map_all f l with
      | none =>
        rw [hrec] at h
        cases h
      | some bs =>
        rw [hrec] at h
        cases h
        rcases List.mem_cons.mp hb with rfl | hb2
        · exact ⟨a, List.mem_cons_self a l, hfa⟩
        · obtain ⟨a2, ha2, hfa2⟩ := ih bs hrec b hb2
          exact ⟨a2, List.mem_cons_of_mem a ha2, hfa2⟩

/-- When the conversion succeeds on every element, the aborting elementwise
conversion is the plain map. -/
theorem option_map_all_eq_map {α β : Type} (f : α → Option β) (g : α → β) :
    ∀ l : List α, (∀ a ∈ l, f a = some (g a)) →
      option_map_all f l = some (l.map g) := by
  intro l
  induction l with
  | nil => intro _; rfl
  | cons a l ih =>
    intro h
    simp only [option_map_all, h a (List.mem_cons_self a l),
      ih (fun a2 ha2 => h a2 (List.mem_cons_of_mem a ha2)), List.map_cons]

/-- C6 counterexample: login does not extract only the ASCII digit
characters: the pin holding the single Arabic-Indic digit three has no ASCII
digit, yet a login COMMAND frame carrying the digit value three is sent;
conversely the pin of an ASCII one followed by the superscript two holds an
ASCII digit, yet int() raises on the superscript and login fails without
sending anything. -/
theorem c6_counterexample :
    (∀ c ∈ pin_arabic, c.char.isDigit = false) ∧
    login_packet pin_arabic = some (create_packet PACKET_TYPE_COMMAND
      ([CMD_SYSTEM, SUBCMD_LOGIN] ++ ([3] ++ [0xFF])) 1) ∧
    (∃ c ∈ pin_super, c.char.isDigit = true) ∧
    login_packet pin_super = none := by
  decide

/-- C6 amended: login extracts the characters the Python str.isdigit()
builtin accepts — every Unicode digit, not only ASCII.  When int() raises on
one of them (a digit that is not decimal) the exception is caught and login
fails without sending anything; with zero digit characters it also fails
without sending; otherwise it sends one COMMAND frame whose data section is
CMD_SYSTEM, SUBCMD_LOGIN, the decimal values truncated to six (at least one,
each at most nine), then the 0xFF terminator.  On a pin of ASCII characters
only, the extracted values are exactly those of its ASCII digit characters,
as the original claim described. -/
theorem c6_login_payload_unicode (pin : List PyChar)
    (hwf : ∀ c ∈ pin, PyChar.wf c = true) :
    (py_digit_values pin = none → login_packet pin = none) ∧
    (py_digit_values pin = some [] → login_packet pin = none) ∧
    (∀ ds0, py_digit_values pin = some ds0 → ds0 ≠ [] →
      login_packet pin = some (create_packet PACKET_TYPE_COMMAND
        ([CMD_SYSTEM, SUBCMD_LOGIN] ++ (ds0.take 6 ++ [0xFF])) 1) ∧
      1 ≤ (ds0.take 6).length ∧ (ds0.take 6).length ≤ 6 ∧
      ∀ d ∈ ds0.take 6, d ≤ 9) ∧
    ((∀ c ∈ pin, c.char.toNat < 128) →
      py_digit_values pin = some ((pin.filter (fun c => c.char.isDigit)).map
        (fun c => c.char.toNat - 48))) := by
  refine ⟨?_, ?_, ?_, ?_⟩
  · intro h
    simp only [login_packet, h]
  · intro h
    simp only [login_packet, h]
    rfl
  · intro ds0 h hne
    have htrunc : (if ds0.length > 6 then ds0.take 6 else ds0)
        = ds0.take 6 := by
      split
      · rfl
      · rename_i hle
        rw [List.take_of_length_le (by omega)]
    have hlen1 : 1 ≤ (ds0.take 6).length := by
      rw [List.length_take]
      have h0 : ds0.length ≠ 0 := by simpa [List.length_eq_zero] using hne
      omega
    have hlen6 : (ds0.take 6).length ≤ 6 := by
      rw [List.length_take]
      omega
    refine ⟨?_, hlen1, hlen6, ?_⟩
    · simp only [login_packet, h, htrunc]
      rw [if_neg (by omega)]
    · intro d hd
      have hd2 := List.take_subset 6 ds0 hd
      obtain ⟨c, hc, hfc⟩ := option_map_all_mem _ _ ds0 h d hd2
      have hdec : c.decimal = some d := hfc
      have hcwf := hwf c (List.mem_of_mem_filter hc)
      simp only [PyChar.wf, Bool.and_eq_true] at hcwf
      have h1 := hcwf.1
      rw [hdec] at h1
      simp at h1
      exact h1.1
  · intro hascii
    have hfeq : pin.filter (fun c => c.isdigit)
        = pin.filter (fun c => c.char.isDigit) := by
      apply List.filter_congr
      intro c hc
      have hcwf := hwf c hc
      simp only [PyChar.wf, Bool.and_eq_true] at hcwf
      have h2 := hcwf.2
      rw [if_pos (hascii c hc)] at h2
      simp only [Bool.and_eq_true, beq_iff_eq] at h2
      exact h2.1
    simp only [py_digit_values]
    rw [hfeq]
    apply option_map_all_eq_map
    intro c hc
    have hm := List.mem_of_mem_filter hc
    have hdg : c.char.isDigit = true := by
      have := (List.mem_filter.mp hc).2
      simpa using this
    have hcwf := hwf c hm
    simp only [PyChar.wf, Bool.and_eq_true] at hcwf
    have h2 := hcwf.2
    rw [if_pos (hascii c hm)] at h2
    simp only [Bool.and_eq_true, beq_iff_eq] at h2
    rw [h2.2, if_pos hdg]

/-- C6 witness: the three behaviours at concrete pins: the superscript pin
raising before anything is sent, the Arabic-Indic pin sending the digit
three, and the all-ASCII pin extracting exactly its ASCII digit values. -/
theorem c6_login_payload_unicode_witness :
    login_packet pin_super = none ∧
    login_packet pin_arabic = some (create_packet PACKET_TYPE_COMMAND
      ([CMD_SYSTEM, SUBCMD_LOGIN] ++ (([3] : List Nat).take 6 ++ [0xFF])) 1) ∧
    py_digit_values pin_ascii
      = some ((pin_ascii.filter (fun c => c.char.isDigit)).map
          (fun c => c.char.toNat - 48)) :=
  ⟨(c6_login_payload_unicode pin_super (by decide)).1 (by decide),
   ((c6_login_payload_unicode pin_arabic (by decide)).2.2.1 [3] (by decide)
      (by decide)).1,
   (c6_login_payload_unicode pin_ascii (by decide)).2.2.2 (by decide)⟩

/-- C8: decoding the byte string produced by encoding in the default
8-bit-sum mode succeeds and recovers the frame whole whenever the total
length is within 6..1024: the read returns exactly the encoded bytes, the
length field equals 6 + payload + 1, the type byte sits at offset four, the
payload occupies offsets 6 through length - 2, and the final byte is the sum
of all preceding bytes mod 256. -/
theorem c8_encode_decode_roundtrip (t : Nat) (payload : List Nat)
    (ht : t < 256) (hb : ∀ b ∈ payload, b < 256)
    (hlen : payload.length ≤ 1017) :
    read_packet (create_packet t payload 1)
      = ReadOutcome.ok (create_packet t payload 1) [] ∧
    le16 ((create_packet t payload 1).getD 2 0)
        ((create_packet t payload 1).getD 3 0) = 6 + payload.length + 1 ∧
    (create_packet t payload 1).getD 4 0 = t ∧
    ((create_packet t payload 1).drop 6).take payload.length = payload ∧
    (create_packet t payload 1).getLast? =
      some ((create_packet t payload 1).dropLast.sum % 256) := by
  refine ⟨?_, ?_, create_packet_type_byte t payload, ?_, ?_⟩
  · have h := read_packet_valid (create_packet t payload 1) []
      (valid_frame_create t payload hlen)
    simpa using h
  · rw [create_packet_one]
    simp only [packet_head, List.cons_append, List.getD_cons_succ,
      List.getD_cons_zero, le16]
    omega
  · rw [create_packet_one]
    simp only [packet_head, List.cons_append, List.drop_succ_cons,
      List.drop_zero]
    exact List.take_left payload _
  · rw [create_packet_one, List.getLast?_concat, List.dropLast_concat]

/-- C8 witness: the roundtrip at a concrete SYSTEM ACK frame. -/
theorem c8_encode_decode_roundtrip_witness :
    read_packet (create_packet 0xC0 [0xFF, 0x00] 1)
      = ReadOutcome.ok (create_packet 0xC0 [0xFF, 0x00] 1) [] ∧
    le16 ((create_packet 0xC0 [0xFF, 0x00] 1).getD 2 0)
        ((create_packet 0xC0 [0xFF, 0x00] 1).getD 3 0)
      = 6 + ([0xFF, 0x00] : List Nat).length + 1 ∧
    (create_packet 0xC0 [0xFF, 0x00] 1).getD 4 0 = 0xC0 ∧
    ((create_packet 0xC0 [0xFF, 0x00] 1).drop 6).take
        ([0xFF, 0x00] : List Nat).length = [0xFF, 0x00] ∧
    (create_packet 0xC0 [0xFF, 0x00] 1).getLast? =
      some ((create_packet 0xC0 [0xFF, 0x00] 1).dropLast.sum % 256) :=
  c8_encode_decode_roundtrip 0xC0 [0xFF, 0x00] (by decide) (by decide)
    (by decide)

/-- C7: a DATA frame whose section holds one record of an unrecognized type,
one door-status record and then the 0xFFFF terminator replaces the door cache
entry at the record's index with the decoded record and invokes every
registered door listener exactly once, in registration order, with that
record; the unknown record is skipped without error and iteration stops at
the terminator whatever bytes trail it. -/
theorem c7_door_status_push (cbs : Callbacks) (st : ClientState)
    (hdr : List Nat) (hhdr : hdr.length = 6) (tU : Nat) (vU : List Nat)
    (data tail : List Nat) (rec : DoorStatus)
    (hU0 : tU ≠ DATA_TYPE_END) (hU1 : tU ≠ DATA_TYPE_DOOR_STATUS)
    (hU2 : tU ≠ DATA_TYPE_INPUT_STATUS) (hU3 : tU ≠ DATA_TYPE_OUTPUT_STATUS)
    (hU4 : tU ≠ DATA_TYPE_AREA_STATUS) (hU5 : tU ≠ DATA_TYPE_EVENT_READABLE)
    (hparse : parse_door_status_data data = some rec) :
    process_data_packet cbs st
        (hdr ++ (encode_tlv tU vU ++ (encode_tlv DATA_TYPE_DOOR_STATUS data ++
          (0xFF :: 0xFF :: tail))))
      = Except.ok ({ st with doors := dictInsert st.doors rec.index rec },
          cbs.door.map (fun c => CbEvent.door c rec)) := by
  simp only [process_data_packet]
  rw [show (6 : Nat) = hdr.length from hhdr.symm, List.drop_left]
  rw [process_loop_unknown cbs st tU vU _ hU0 hU1 hU2 hU3 hU4 hU5]
  rw [process_loop_door cbs st data _ rec hparse]
  rw [process_loop_term]
  simp

/-- C7 witness: a concrete frame with an unknown record of type 0x0200, a
door-status record for index five and the terminator followed by one stray
byte, processed with two registered door listeners. -/
theorem c7_door_status_push_witness :
    process_data_packet cbs_example empty_state
        ([0x49, 0x43, 0, 0, 0x01, 0x00] ++ (encode_tlv 0x0200 [1, 2] ++
          (encode_tlv DATA_TYPE_DOOR_STATUS [5, 0, 0, 0, 1, 2, 0, 0] ++
            (0xFF :: 0xFF :: [0x00]))))
      = Except.ok
          ({ empty_state with
              doors := dictInsert empty_state.doors door_rec_example.index
                door_rec_example },
            cbs_example.door.map (fun c => CbEvent.door c door_rec_example)) :=
  c7_door_status_push cbs_example empty_state
    [0x49, 0x43, 0, 0, 0x01, 0x00] (by decide) 0x0200 [1, 2]
    [5, 0, 0, 0, 1, 2, 0, 0] [0x00] door_rec_example
    (by decide) (by decide) (by decide) (by decide) (by decide) (by decide)
    (by decide)

/-- A record slice the door parser accepts holds at least six bytes. -/
theorem parse_door_status_data_length (data : List Nat) (rec : DoorStatus)
    (h : parse_door_status_data data = some rec) : 6 ≤ data.length := by
  by_contra hc
  simp [parse_door_status_data, hc] at h

/-- The scan of _parse_door_status finds the first door-status record and
returns its declared value slice. -/
theorem door_status_scan_door (data tail : List Nat) (hne : data ≠ []) :
    door_status_scan (encode_tlv DATA_TYPE_DOOR_STATUS data ++ tail)
      = some data := by
  rcases data with _ | ⟨d0, dtl⟩
  · exact absurd rfl hne
  · simp only [encode_tlv, DATA_TYPE_DOOR_STATUS, List.length_cons,
      List.cons_append]
    norm_num
    rw [door_status_scan.eq_def]
    simp only
    rw [show le16 0 1 = 256 from by simp [le16]]
    rw [if_neg (by simp [DATA_TYPE_END])]
    rw [show (256 : Nat) = DATA_TYPE_DOOR_STATUS from rfl, if_pos rfl]
    rw [List.take_succ_cons, List.take_left]

/-- C1 counterexample: the response to a command being a SYSTEM NACK with the
index-not-valid error code, lock_door still reports plain success: it returns
True and neither parses the 16-bit error code nor returns any error value. -/
theorem c1_counterexample :
    (nack_response 0x0121).getD 4 0 = PACKET_TYPE_SYSTEM ∧
    is_ack (nack_response 0x0121) = false ∧
    lock_door true (some (nack_response 0x0121)) = true := by
  decide

/-- C1 amended: the packet reader routes a SYSTEM NACK frame to the response
queue like any other SYSTEM frame, and a command call such as lock_door then
returns True — plain success — because a response frame arrived; the NACK
payload and its 16-bit error code are never inspected on the command path,
and False arises only when no response frame arrives at all. -/
theorem c1_amended_nack_reports_success (cbs : Callbacks) (st : ClientState)
    (code : Nat) (hcode : code < 65536) :
    (packet_reader cbs st (nack_response code)).2.2
      = [ReaderEvent.enqueued (nack_response code)] ∧
    is_ack (nack_response code) = false ∧
    lock_door true (some (nack_response code)) = true ∧
    lock_door true none = false := by
  have hv : valid_frame (nack_response code) = true :=
    valid_frame_create _ _ (by simp)
  have h6 : 6 ≤ (nack_response code).length := (valid_frame_length _ hv).1
  have ht : (nack_response code).getD 4 0 = PACKET_TYPE_SYSTEM :=
    create_packet_type_byte _ _
  refine ⟨?_, ?_, rfl, rfl⟩
  · have hstep := packet_reader_step cbs st (nack_response code) [] hv
    rw [List.append_nil] at hstep
    rw [hstep, handle_packet_system cbs st _ h6 ht]
    simp [packet_reader_nil]
  · simp [is_ack, nack_response, create_packet_one, packet_head]

/-- C1 amended witness: the routing and the success report at the concrete
index-not-valid NACK. -/
theorem c1_amended_nack_reports_success_witness :
    (packet_reader no_callbacks empty_state (nack_response 0x0121)).2.2
      = [ReaderEvent.enqueued (nack_response 0x0121)] ∧
    is_ack (nack_response 0x0121) = false ∧
    lock_door true (some (nack_response 0x0121)) = true ∧
    lock_door true none = false :=
  c1_amended_nack_reports_success no_callbacks empty_state 0x0121 (by decide)

/-- C2 counterexample: a received frame whose trailing checksum byte does not
match the 8-bit sum of the preceding bytes is still decoded and delivered
unchanged, not rejected. -/
theorem c2_counterexample :
    corrupt_frame.getLast? ≠ some (corrupt_frame.dropLast.sum % 256) ∧
    read_packet corrupt_frame = ReadOutcome.ok corrupt_frame [] := by
  decide

/-- C2 amended: the receive path verifies no checksum at all: every byte
string with the magic bytes and an in-range length field matching its byte
count is delivered unchanged, whatever its final checksum byte holds. -/
theorem c2_amended_no_checksum_verified (pre : List Nat) (c : Nat)
    (h : valid_frame (pre ++ [c]) = true) :
    read_packet (pre ++ [c]) = ReadOutcome.ok (pre ++ [c]) [] := by
  have h2 := read_packet_valid (pre ++ [c]) [] h
  simpa using h2

/-- C2 amended witness: delivery of the concrete frame whose correct trailer
0x54 was corrupted to 0x55. -/
theorem c2_amended_no_checksum_verified_witness :
    read_packet ([0x49, 0x43, 0x09, 0x00, 0xC0, 0x00, 0xFF, 0x00] ++ [0x55])
      = ReadOutcome.ok
          ([0x49, 0x43, 0x09, 0x00, 0xC0, 0x00, 0xFF, 0x00] ++ [0x55]) [] :=
  c2_amended_no_checksum_verified [0x49, 0x43, 0x09, 0x00, 0xC0, 0x00, 0xFF, 0x00]
    0x55 (by decide)

/-- C3 counterexample: a DATA frame whose door-status record is truncated
makes record parsing raise; the reader catches the exception, logs it, and
does not transmit any ACK for that frame. -/
theorem c3_counterexample :
    bad_door_frame.getD 4 0 = PACKET_TYPE_DATA ∧
    valid_frame bad_door_frame = true ∧
    (packet_reader no_callbacks empty_state bad_door_frame).2.2
      = [ReaderEvent.parseErrorLogged] ∧
    countAcks (packet_reader no_callbacks empty_state bad_door_frame).2.2
      = 0 := by
  have hv : valid_frame bad_door_frame = true := by decide
  have htr : (packet_reader no_callbacks empty_state bad_door_frame).2.2
      = [ReaderEvent.parseErrorLogged] := by
    have hstep := packet_reader_step no_callbacks empty_state bad_door_frame [] hv
    rw [List.append_nil] at hstep
    have hsecf : section_parses (bad_door_frame.drop 6) = false := by
      rw [show bad_door_frame.drop 6 = [0x00, 0x01, 0x02, 0xAA, 0xBB, 0x00]
        from by decide]
      rw [section_parses.eq_def]
      norm_num [le16, DATA_TYPE_END, record_parses, DATA_TYPE_DOOR_STATUS,
        parse_door_status_data]
    rw [hstep, handle_packet_data_err no_callbacks empty_state bad_door_frame
      (by decide) (by decide) hsecf]
    simp [packet_reader_nil]
  exact ⟨by decide, hv, htr, by rw [htr]; decide⟩

/-- C3 amended: each DATA frame whose TLV records parse without error is
followed by exactly one SYSTEM ACK (payload 0xFF 0x00), emitted in arrival
order; a DATA frame whose record parsing raises is logged and not
acknowledged, the reader then continuing with the next frame. -/
theorem c3_amended_ack_only_for_clean_data (cbs : Callbacks) :
    ∀ (fs : List (List Nat)) (st : ClientState),
      (∀ f ∈ fs, valid_frame f = true ∧ f.getD 4 0 = PACKET_TYPE_DATA) →
      countAcks (packet_reader cbs st fs.flatten).2.2
          = (fs.filter (fun f => section_parses (f.drop 6))).length ∧
      ∀ p, ReaderEvent.ackSent p ∈ (packet_reader cbs st fs.flatten).2.2 →
        p = ack_packet := by
  intro fs
  induction fs with
  | nil =>
    intro st _
    rw [List.flatten_nil, packet_reader_nil]
    exact ⟨rfl, by simp⟩
  | cons f fs ih =>
    intro st h
    obtain ⟨hvf, htf⟩ := h f (List.mem_cons_self f fs)
    have hrest := fun g hg => h g (List.mem_cons_of_mem f hg)
    have h6 : 6 ≤ f.length := (valid_frame_length f hvf).1
    rw [List.flatten_cons, packet_reader_step cbs st f fs.flatten hvf]
    by_cases hsec : section_parses (f.drop 6) = true
    · obtain ⟨st2, evs, hf⟩ := handle_packet_data_ok cbs st f h6 htf hsec
      rw [hf]
      obtain ⟨ihc, ihm⟩ := ih st2 hrest
      constructor
      · rw [List.filter_cons_of_pos (by simpa using hsec)]
        simp only [countAcks, List.countP_append] at ihc ⊢
        simp [List.countP_cons, ihc]
        omega
      · intro p hp
        rcases List.mem_append.mp hp with h1 | h2
        · simp only [List.mem_cons, List.not_mem_nil, or_false] at h1
          rcases h1 with h1 | h1
          · cases h1
          · exact (ReaderEvent.ackSent.injEq _ _).mp h1.symm |>.symm
        · exact ihm p h2
    · have hsec2 : section_parses (f.drop 6) = false := by simpa using hsec
      rw [handle_packet_data_err cbs st f h6 htf hsec2]
      obtain ⟨ihc, ihm⟩ := ih st hrest
      constructor
      · rw [List.filter_cons_of_neg (by simpa using hsec)]
        simp only [countAcks, List.countP_append] at ihc ⊢
        simp [List.countP_cons, ihc]
      · intro p hp
        rcases List.mem_append.mp hp with h1 | h2
        · simp at h1
        · exact ihm p h2

/-- C3 amended witness: a clean door-status DATA frame followed by the
truncated one yields exactly one ACK, matching the count of frames that
parse. -/
theorem c3_amended_ack_only_for_clean_data_witness :
    countAcks (packet_reader no_callbacks empty_state
        ([good_door_frame, bad_door_frame] : List (List Nat)).flatten).2.2
      = (([good_door_frame, bad_door_frame] : List (List Nat)).filter
          (fun f => section_parses (f.drop 6))).length ∧
    ∀ p, ReaderEvent.ackSent p ∈ (packet_reader no_callbacks empty_state
        ([good_door_frame, bad_door_frame] : List (List Nat)).flatten).2.2 →
      p = ack_packet :=
  c3_amended_ack_only_for_clean_data no_callbacks
    [good_door_frame, bad_door_frame] empty_state (by decide)

/-- C4 counterexample: after two junk bytes that fail the magic check the
reader does not stop: it drops them, stays in its loop, and still reads and
dispatches the following well-formed frame. -/
theorem c4_counterexample :
    read_packet junk_then_frame = ReadOutcome.badFrame ack_packet ∧
    (packet_reader no_callbacks empty_state junk_then_frame).2.2
      = [ReaderEvent.dropped, ReaderEvent.enqueued ack_packet] := by
  have hb : read_packet junk_then_frame = ReadOutcome.badFrame ack_packet := by
    decide
  refine ⟨hb, ?_⟩
  rw [packet_reader_badFrame no_callbacks empty_state _ _ hb]
  have hv : valid_frame ack_packet = true := by decide
  have hstep := packet_reader_step no_callbacks empty_state ack_packet [] hv
  rw [List.append_nil] at hstep
  rw [hstep, handle_packet_system no_callbacks empty_state _ (by decide)
    (by decide)]
  simp [packet_reader_nil]

/-- C4 amended: only stream exhaustion (the incomplete-read path) clears the
connected flag and terminates the reader loop; a frame with bad magic bytes
or with a length field outside 6..1024 is dropped after consuming the read
bytes, the session stays as it was, and the loop continues reading. -/
theorem c4_amended_framing_error_continues (cbs : Callbacks)
    (st : ClientState) :
    (∀ s, read_packet s = ReadOutcome.eof →
      packet_reader cbs st s = (st, false, [])) ∧
    (∀ a b s2, ¬(a = 0x49 ∧ b = 0x43) →
      (packet_reader cbs st (a :: b :: s2)).2.2
          = ReaderEvent.dropped :: (packet_reader cbs st s2).2.2 ∧
      (packet_reader cbs st (a :: b :: s2)).1 = (packet_reader cbs st s2).1 ∧
      (packet_reader cbs st (a :: b :: s2)).2.1
          = (packet_reader cbs st s2).2.1) ∧
    (∀ l0 l1 s4, le16 l0 l1 < 6 ∨ le16 l0 l1 > 1024 →
      (packet_reader cbs st (0x49 :: 0x43 :: l0 :: l1 :: s4)).2.2
          = ReaderEvent.dropped :: (packet_reader cbs st s4).2.2 ∧
      (packet_reader cbs st (0x49 :: 0x43 :: l0 :: l1 :: s4)).1
          = (packet_reader cbs st s4).1 ∧
      (packet_reader cbs st (0x49 :: 0x43 :: l0 :: l1 :: s4)).2.1
          = (packet_reader cbs st s4).2.1) := by
  refine ⟨fun s h => packet_reader_eof cbs st s h, ?_, ?_⟩
  · intro a b s2 hab
    have hb : read_packet (a :: b :: s2) = ReadOutcome.badFrame s2 := by
      simp only [read_packet]
      rw [if_neg hab]
    rw [packet_reader_badFrame cbs st _ _ hb]
    exact ⟨rfl, rfl, rfl⟩
  · intro l0 l1 s4 hlen
    have hb : read_packet (0x49 :: 0x43 :: l0 :: l1 :: s4)
        = ReadOutcome.badFrame s4 := by
      simp only [read_packet]
      rw [if_pos ⟨trivial, trivial⟩, if_pos hlen]
    rw [packet_reader_badFrame cbs st _ _ hb]
    exact ⟨rfl, rfl, rfl⟩

/-- C4 amended witness: the three behaviours at concrete streams: exhausted
stream, junk magic bytes, and an in-magic frame with length field five. -/
theorem c4_amended_framing_error_continues_witness :
    (packet_reader no_callbacks empty_state [0x49] = (empty_state, false, [])) ∧
    ((packet_reader no_callbacks empty_state (0 :: 0 :: ([] : List Nat))).2.2
      = ReaderEvent.dropped :: (packet_reader no_callbacks empty_state []).2.2) ∧
    ((packet_reader no_callbacks empty_state
        (0x49 :: 0x43 :: 5 :: 0 :: ([] : List Nat))).2.2
      = ReaderEvent.dropped :: (packet_reader no_callbacks empty_state []).2.2) :=
  ⟨(c4_amended_framing_error_continues no_callbacks empty_state).1 [0x49]
      (by decide),
   ((c4_amended_framing_error_continues no_callbacks empty_state).2.1 0 0 []
      (by decide)).1,
   ((c4_amended_framing_error_continues no_callbacks empty_state).2.2 5 0 []
      (by decide)).1⟩

/-- C5 counterexample: a five second timeout (no response) and a NACK with an
error code other than index-not-valid both make get_door_status return None,
exactly as an invalid index would: None is not reserved for the 0x0121 NACK
and no distinct error value exists for other failures. -/
theorem c5_counterexample :
    get_door_status true none = none ∧
    get_door_status true (some (nack_response 0x0120)) = none ∧
    is_ack (nack_response 0x0120) = false := by
  decide

/-- C5 amended: get_door_status returns the decoded record when the response
is a DATA frame carrying a door-status TLV record, and returns None in every
other case alike: no response within the timeout, any response that is not a
DATA frame (every NACK included, whatever its error code), so None does not
distinguish an invalid index from a timeout or another failure. -/
theorem c5_amended_none_conflates_failures :
    (get_door_status true none = none) ∧
    (∀ p, p.getD 4 0 ≠ PACKET_TYPE_DATA →
      get_door_status true (some p) = none) ∧
    (∀ hdr data tail rec, hdr.length = 6 → hdr.getD 4 0 = PACKET_TYPE_DATA →
      parse_door_status_data data = some rec →
      get_door_status true
          (some (hdr ++ (encode_tlv DATA_TYPE_DOOR_STATUS data ++ tail)))
        = some rec) := by
  refine ⟨rfl, ?_, ?_⟩
  · intro p hp
    show parse_door_status p = none
    by_cases hl : p.length < 10
    · simp [parse_door_status, hl]
    · simp only [parse_door_status, if_neg hl]
      rw [if_pos hp]
  · intro hdr data tail rec hhdr htype hparse
    have hd6 : 6 ≤ data.length := parse_door_status_data_length data rec hparse
    show parse_door_status _ = some rec
    simp only [parse_door_status]
    rw [if_neg (by simp [List.length_append, encode_tlv]; omega)]
    rw [if_neg (by
      rw [List.getD_append _ _ _ _ (by omega), htype]
      simp)]
    rw [show (6 : Nat) = hdr.length from hhdr.symm, List.drop_left]
    rw [door_status_scan_door data tail (by intro he; rw [he] at hd6; simp at hd6)]
    exact hparse

/-- C5 amended witness: the three behaviours at a concrete timeout, a
concrete NACK and a concrete DATA response carrying door index five. -/
theorem c5_amended_none_conflates_failures_witness :
    get_door_status true none = none ∧
    get_door_status true (some (nack_response 0x0121)) = none ∧
    get_door_status true
        (some ([0x49, 0x43, 0, 0, 0x01, 0x00] ++
          (encode_tlv DATA_TYPE_DOOR_STATUS [5, 0, 0, 0, 1, 2, 0, 0] ++ [0xFF])))
      = some door_rec_example :=
  ⟨c5_amended_none_conflates_failures.1,
   c5_amended_none_conflates_failures.2.1 (nack_response 0x0121) (by decide),
   c5_amended_none_conflates_failures.2.2 [0x49, 0x43, 0, 0, 0x01, 0x00]
     [5, 0, 0, 0, 1, 2, 0, 0] [0xFF] door_rec_example (by decide) (by decide)
     (by decide)⟩

end Protege
